import Mathlib

/-!
A shallow embedding of the `wishlist` ink! contract (src/lib.rs) and proofs
about its specification.

Modelling conventions:
* `H160` account identifiers are opaque; we model them as naturals and only
  ever compare them for equality, exactly as the contract does.
* `U256` balances are modelled as natural numbers.  The contract's balance
  arithmetic is addition, multiplication by the constant 100 (or 10) and
  floor division; none of the claims under study exercises the 2^256 wrap
  boundary.  Division by zero panics in the source (`U256::div`), so the one
  place a zero divisor can occur (`split_raised_wish`) models it as a panic
  explicitly.
* The `u32` counter `next_item_id` is a natural, but its increment goes
  through `checked_add`, which is modelled with the explicit 2^32 bound.
* An ink! message either returns `Ok`, returns `Err`, or panics (failed
  `assert!` / `unwrap` on `None`).  A panic aborts the transaction and
  reverts every storage write, so it is modelled as an outcome that leaves
  the pre-state unchanged.
* `self.env().transfer(to, amount)` is an external call.  Each message
  returns, next to its outcome and post-state, the list of transfer requests
  it issued, in order.  `claim_wish` inspects the result of its single
  transfer, so it receives that result (`transferOk`) as an oracle argument;
  `split_raised_wish` discards every transfer result (`let _ = ...` in the
  source), so its oracle argument is unused.
* `StorageVec<Option<WishListItem>>` is a list of optional items;
  `StorageVec::get` is `List.getElem?` (returning `none` out of bounds) and
  `StorageVec::set` is `List.set` (all `set` calls in the source are at an
  index where `get` just succeeded, hence in bounds).
-/

namespace wishlist

/-- `H160` account addresses, compared only for equality. -/
abbrev H160 : Type := Nat

/-- Errors that can occur upon calling this contract (src/lib.rs:48-55). -/
inductive Error : Type where
  | InvalidContribution : Error
  | WishNotFound : Error
  | InvalidTarget : Error
  deriving Repr, DecidableEq

/-- Outcome of one ink! message call: normal return, typed error, or a
panic (failed `assert!` or `Option::unwrap`), which aborts the transaction. -/
inductive Outcome (α : Type) : Type where
  | ok (a : α) : Outcome α
  | err (e : Error) : Outcome α
  | panic : Outcome α
  deriving Repr, DecidableEq

/-- One wishlist campaign (src/lib.rs:65-73). -/
structure WishListItem : Type where
  id : Nat
  description : String
  owner : H160
  target : Nat
  end_date : Nat
  raised : Nat
  contributors : List (H160 × Nat)
  deriving Repr, DecidableEq

/-- Contract storage (src/lib.rs:79-85): the next id and the slot vector. -/
structure Wishlist : Type where
  next_item_id : Nat
  items : List (Option WishListItem)
  deriving Repr, DecidableEq

/-- Constructor `Wishlist::new` (src/lib.rs:90-95): the counter starts at 1
and the slot vector is empty. -/
def Wishlist.new : Wishlist :=
  { next_item_id := 1, items := [] }

/-- `u32::checked_add` (used at src/lib.rs:138-141). -/
def checkedAddU32 (a b : Nat) : Option Nat :=
  if a + b < 2 ^ 32 then some (a + b) else none

/-- Message `add_wishlist_item` (src/lib.rs:106-149).  `caller` and `value`
are the environment's caller and transferred value. -/
def add_wishlist_item (s : Wishlist) (caller : H160) (value : Nat)
    (description : String) (end_date : Nat) (target : Nat) :
    Outcome Unit × Wishlist :=
  if target ≤ 0 then
    (.err .InvalidTarget, s)
  else
    let ten_percent := target * 10 / 100
    if value < ten_percent then
      (.err .InvalidContribution, s)
    else
      let item_count := s.next_item_id
      let wishlist : WishListItem :=
        { id := item_count, description := description, owner := caller,
          target := target, end_date := end_date, raised := value,
          contributors := [] }
      match checkedAddU32 s.next_item_id 1 with
      | none => (.err .InvalidContribution, s)
      | some n =>
          (.ok (), { next_item_id := n, items := s.items ++ [some wishlist] })

/-- Message `fund_wish` (src/lib.rs:151-194).  Note: the slot lookup
distinguishes an out-of-range id (`WishNotFound`) from a cleared slot, on
which `item.unwrap()` panics. -/
def fund_wish (s : Wishlist) (caller : H160) (value : Nat) (id : Nat) :
    Outcome Unit × Wishlist :=
  if value ≤ 0 then
    (.err .InvalidContribution, s)
  else
    match s.items[id]? with
    | none => (.err .WishNotFound, s)
    | some none => (.panic, s)
    | some (some item) =>
        if caller = item.owner then
          (.ok (),
            { s with items :=
                s.items.set id (some { item with raised := item.raised + value }) })
        else
          if item.contributors.any (fun c => c.1 = caller) then
            let contributors := item.contributors.map
              (fun c => if c.1 = caller then (c.1, c.2 + value) else c)
            (.ok (),
              { s with items :=
                  s.items.set id (some { item with contributors := contributors }) })
          else
            let item' := { item with
              contributors := item.contributors ++ [(caller, value)] }
            (.ok (), { s with items := s.items.set id (some item') })

/-- Helper `get_contributors_raised` (src/lib.rs:289-307): the fold of the
contributor amounts, `none` when the slot is missing or cleared. -/
def get_contributors_raised (s : Wishlist) (id : Nat) : Option Nat :=
  match s.items[id]? with
  | none => none
  | some none => none
  | some (some item) =>
      some (item.contributors.foldl (fun acc curr => acc + curr.2) 0)

/-- Message `split_raised_wish` (src/lib.rs:196-230).  The slot is cleared
before the transfer loop; every transfer result is discarded (`let _ =`),
so the function does not depend on any transfer oracle.  `U256` division
panics on a zero divisor, which would abort (and revert) on the loop's
first iteration; the assertion at src/lib.rs:206-209 guarantees the loop
body runs at least once, so a zero `total_worth` is a panic. -/
def split_raised_wish (s : Wishlist) (caller : H160) (id : Nat) :
    Outcome Unit × Wishlist × List (H160 × Nat) :=
  match s.items[id]? with
  | none => (.err .WishNotFound, s, [])
  | some none => (.panic, s, [])
  | some (some item) =>
      if item.contributors.any (fun c => c.1 = caller) then
        let contributors_raise := get_contributors_raised s id
        let total_worth :=
          match contributors_raise with
          | none => item.raised
          | some raised => raised + item.raised
        if total_worth = 0 then
          (.panic, s, [])
        else
          (.ok (),
            { s with items := s.items.set id none },
            item.contributors.map (fun c => (c.1, c.2 * 100 / total_worth)))
      else
        (.panic, s, [])

/-- Message `claim_wish` (src/lib.rs:232-278).  `time` is the environment's
block timestamp and `transferOk` the result of the payout transfer (the
transfer request itself is recorded in the returned list).  On transfer
success the source clears the slot twice (src/lib.rs:260-263 and :269),
which is the same single post-state. -/
def claim_wish (s : Wishlist) (caller : H160) (time : Nat) (transferOk : Bool)
    (id : Nat) : Outcome Unit × Wishlist × List (H160 × Nat) :=
  match s.items[id]? with
  | none => (.err .WishNotFound, s, [])
  | some none => (.panic, s, [])
  | some (some item) =>
      if item.owner ≠ caller then
        (.err .WishNotFound, s, [])
      else
        if time < item.end_date then
          (.panic, s, [])
        else
          if item.raised ≥ item.target then
            let contributors_worth :=
              item.contributors.foldl (fun acc cur => acc + cur.2) 0
            let payout := item.raised + contributors_worth
            if transferOk then
              (.ok (), { s with items := s.items.set id none },
                [(item.owner, payout)])
            else
              (.err .InvalidContribution, s, [(item.owner, payout)])
          else
            (.err .InvalidContribution, s, [])

/-- Message `get_wishlist_item` (src/lib.rs:280-283):
`self.items.get(id).ok_or(Error::WishNotFound)` — only an out-of-range id is
turned into `WishNotFound`; a cleared slot is returned as `Ok(None)`. -/
def get_wishlist_item (s : Wishlist) (id : Nat) :
    Outcome (Option WishListItem) :=
  match s.items[id]? with
  | none => .err .WishNotFound
  | some v => .ok v

/-! ### Arithmetic and list helpers -/

theorem foldl_amount_init (l : List (H160 × Nat)) (a : Nat) :
    l.foldl (fun acc curr => acc + curr.2) a =
      a + l.foldl (fun acc curr => acc + curr.2) 0 := by
  induction l generalizing a with
  | nil => simp
  | cons c l ih =>
      simp only [List.foldl_cons]
      rw [ih (a + c.2), ih (0 + c.2)]
      omega

theorem snd_le_foldl_amount {l : List (H160 × Nat)} {c : H160 × Nat}
    (h : c ∈ l) : c.2 ≤ l.foldl (fun acc curr => acc + curr.2) 0 := by
  induction l with
  | nil => cases h
  | cons d l ih =>
      rw [List.foldl_cons, foldl_amount_init]
      rcases List.mem_cons.1 h with rfl | h
      · omega
      · have := ih h
        omega

theorem any_fst_of_mem {l : List (H160 × Nat)} {x : H160}
    (h : x ∈ l.map Prod.fst) : l.any (fun c => c.1 = x) = true := by
  rcases List.mem_map.1 h with ⟨c, hc, rfl⟩
  exact List.any_eq_true.2 ⟨c, hc, by simp⟩

theorem any_fst_eq_false {l : List (H160 × Nat)} {x : H160}
    (h : x ∉ l.map Prod.fst) : l.any (fun c => c.1 = x) = false := by
  rw [List.any_eq_false]
  intro c hc
  simp only [decide_eq_true_eq]
  intro hcx
  exact h (List.mem_map.2 ⟨c, hc, hcx⟩)

theorem map_update_of_not_mem {l : List (H160 × Nat)} {x : H160} (v : Nat)
    (h : x ∉ l.map Prod.fst) :
    l.map (fun c => if c.1 = x then (c.1, c.2 + v) else c) = l := by
  induction l with
  | nil => rfl
  | cons c l ih =>
      have hc : ¬c.1 = x := fun hcx =>
        h (List.mem_map.2 ⟨c, List.mem_cons_self c l, hcx⟩)
      have hl : x ∉ l.map Prod.fst := fun hx => by
        rcases List.mem_map.1 hx with ⟨d, hd, rfl⟩
        exact h (List.mem_map.2 ⟨d, List.mem_cons_of_mem c hd, rfl⟩)
      simp only [List.map_cons, if_neg hc, ih hl]

theorem filter_fst_of_not_mem {l : List (H160 × Nat)} {x : H160}
    (h : x ∉ l.map Prod.fst) : l.filter (fun c => c.1 = x) = [] := by
  induction l with
  | nil => rfl
  | cons c l ih =>
      have hc : ¬c.1 = x := fun hcx =>
        h (List.mem_map.2 ⟨c, List.mem_cons_self c l, hcx⟩)
      have hl : x ∉ l.map Prod.fst := fun hx => by
        rcases List.mem_map.1 hx with ⟨d, hd, rfl⟩
        exact h (List.mem_map.2 ⟨d, List.mem_cons_of_mem c hd, rfl⟩)
      rw [List.filter_cons_of_neg (by simpa using hc), ih hl]

/-! ### Shape lemmas: one per control-flow branch of each message -/

theorem add_ok (s : Wishlist) (caller : H160) (value : Nat) (d : String)
    (e t : Nat) (ht : 0 < t) (hv : t * 10 / 100 ≤ value)
    (hn : s.next_item_id + 1 < 2 ^ 32) :
    add_wishlist_item s caller value d e t =
      (.ok (), { next_item_id := s.next_item_id + 1,
                 items := s.items ++
                   [some { id := s.next_item_id, description := d,
                           owner := caller, target := t, end_date := e,
                           raised := value, contributors := [] }] }) := by
  simp only [add_wishlist_item, checkedAddU32]
  rw [if_neg (by omega), if_neg (by omega), if_pos hn]

theorem add_err_target (s : Wishlist) (caller : H160) (value : Nat)
    (d : String) (e t : Nat) (ht : t = 0) :
    add_wishlist_item s caller value d e t = (.err .InvalidTarget, s) := by
  simp only [add_wishlist_item]
  rw [if_pos (by omega)]

theorem add_err_value (s : Wishlist) (caller : H160) (value : Nat)
    (d : String) (e t : Nat) (hv : value < t * 10 / 100) :
    add_wishlist_item s caller value d e t = (.err .InvalidContribution, s) := by
  have ht : ¬t ≤ 0 := by
    intro h
    rw [Nat.le_zero.1 h] at hv
    simp at hv
  simp only [add_wishlist_item]
  rw [if_neg ht, if_pos hv]

theorem add_err_overflow (s : Wishlist) (caller : H160) (value : Nat)
    (d : String) (e t : Nat) (ht : 0 < t) (hv : t * 10 / 100 ≤ value)
    (hn : ¬s.next_item_id + 1 < 2 ^ 32) :
    add_wishlist_item s caller value d e t = (.err .InvalidContribution, s) := by
  simp only [add_wishlist_item, checkedAddU32]
  rw [if_neg (by omega), if_neg (by omega), if_neg hn]

theorem fund_zero (s : Wishlist) (caller : H160) (value id : Nat)
    (hv : value ≤ 0) :
    fund_wish s caller value id = (.err .InvalidContribution, s) := by
  simp only [fund_wish]
  rw [if_pos hv]

theorem fund_notfound (s : Wishlist) (caller : H160) (value id : Nat)
    (hv : 0 < value) (h : s.items[id]? = none) :
    fund_wish s caller value id = (.err .WishNotFound, s) := by
  simp only [fund_wish, h]
  rw [if_neg (by omega)]

theorem fund_settled (s : Wishlist) (caller : H160) (value id : Nat)
    (hv : 0 < value) (h : s.items[id]? = some none) :
    fund_wish s caller value id = (.panic, s) := by
  simp only [fund_wish, h]
  rw [if_neg (by omega)]

theorem fund_owner (s : Wishlist) (caller : H160) (value id : Nat)
    (item : WishListItem) (hv : 0 < value)
    (hslot : s.items[id]? = some (some item)) (hc : caller = item.owner) :
    fund_wish s caller value id =
      (.ok (),
        { s with items :=
            s.items.set id (some { item with raised := item.raised + value }) }) := by
  simp only [fund_wish, hslot, if_neg (show ¬value ≤ 0 by omega), if_pos hc]

theorem fund_existing (s : Wishlist) (caller : H160) (value id : Nat)
    (item : WishListItem) (hv : 0 < value)
    (hslot : s.items[id]? = some (some item)) (hc : caller ≠ item.owner)
    (hmem : caller ∈ item.contributors.map Prod.fst) :
    fund_wish s caller value id =
      (.ok (),
        { s with items :=
            s.items.set id (some { item with
              contributors := item.contributors.map
                (fun c => if c.1 = caller then (c.1, c.2 + value) else c) }) }) := by
  simp only [fund_wish, hslot, if_neg (show ¬value ≤ 0 by omega), if_neg hc,
    any_fst_of_mem hmem, if_pos, if_true]

theorem fund_new (s : Wishlist) (caller : H160) (value id : Nat)
    (item : WishListItem) (hv : 0 < value)
    (hslot : s.items[id]? = some (some item)) (hc : caller ≠ item.owner)
    (hnot : caller ∉ item.contributors.map Prod.fst) :
    fund_wish s caller value id =
      (.ok (),
        { s with items :=
            s.items.set id (some { item with
              contributors := item.contributors ++ [(caller, value)] }) }) := by
  simp only [fund_wish, hslot, if_neg (show ¬value ≤ 0 by omega), if_neg hc,
    any_fst_eq_false hnot, if_false, Bool.false_eq_true, if_neg]

theorem gcr_of_slot (s : Wishlist) (id : Nat) (item : WishListItem)
    (hslot : s.items[id]? = some (some item)) :
    get_contributors_raised s id =
      some (item.contributors.foldl (fun acc curr => acc + curr.2) 0) := by
  simp only [get_contributors_raised, hslot]

theorem split_notfound (s : Wishlist) (caller : H160) (id : Nat)
    (h : s.items[id]? = none) :
    split_raised_wish s caller id = (.err .WishNotFound, s, []) := by
  simp only [split_raised_wish, h]

theorem split_settled (s : Wishlist) (caller : H160) (id : Nat)
    (h : s.items[id]? = some none) :
    split_raised_wish s caller id = (.panic, s, []) := by
  simp only [split_raised_wish, h]

theorem split_noncontrib (s : Wishlist) (caller : H160) (id : Nat)
    (item : WishListItem) (hslot : s.items[id]? = some (some item))
    (hnot : caller ∉ item.contributors.map Prod.fst) :
    split_raised_wish s caller id = (.panic, s, []) := by
  simp only [split_raised_wish, hslot, any_fst_eq_false hnot,
    Bool.false_eq_true, if_false, if_neg]

theorem split_zero_worth (s : Wishlist) (caller : H160) (id : Nat)
    (item : WishListItem) (hslot : s.items[id]? = some (some item))
    (hmem : caller ∈ item.contributors.map Prod.fst)
    (hz : item.contributors.foldl (fun acc curr => acc + curr.2) 0 +
      item.raised = 0) :
    split_raised_wish s caller id = (.panic, s, []) := by
  simp only [split_raised_wish, hslot, any_fst_of_mem hmem, if_true,
    gcr_of_slot s id item hslot, if_pos hz]

theorem split_spec (s : Wishlist) (caller : H160) (id : Nat)
    (item : WishListItem) (hslot : s.items[id]? = some (some item))
    (hmem : caller ∈ item.contributors.map Prod.fst)
    (hz : item.contributors.foldl (fun acc curr => acc + curr.2) 0 +
      item.raised ≠ 0) :
    split_raised_wish s caller id =
      (.ok (),
        { s with items := s.items.set id none },
        item.contributors.map (fun c => (c.1, c.2 * 100 /
          (item.contributors.foldl (fun acc curr => acc + curr.2) 0 +
            item.raised)))) := by
  simp only [split_raised_wish, hslot, any_fst_of_mem hmem, if_true,
    gcr_of_slot s id item hslot, if_neg hz]

theorem claim_notfound (s : Wishlist) (caller : H160) (time : Nat)
    (tOk : Bool) (id : Nat) (h : s.items[id]? = none) :
    claim_wish s caller time tOk id = (.err .WishNotFound, s, []) := by
  simp only [claim_wish, h]

theorem claim_settled (s : Wishlist) (caller : H160) (time : Nat)
    (tOk : Bool) (id : Nat) (h : s.items[id]? = some none) :
    claim_wish s caller time tOk id = (.panic, s, []) := by
  simp only [claim_wish, h]

theorem claim_not_owner (s : Wishlist) (caller : H160) (time : Nat)
    (tOk : Bool) (id : Nat) (item : WishListItem)
    (hslot : s.items[id]? = some (some item)) (hc : item.owner ≠ caller) :
    claim_wish s caller time tOk id = (.err .WishNotFound, s, []) := by
  simp only [claim_wish, hslot, if_pos hc]

theorem claim_early (s : Wishlist) (caller : H160) (time : Nat)
    (tOk : Bool) (id : Nat) (item : WishListItem)
    (hslot : s.items[id]? = some (some item)) (hc : item.owner = caller)
    (htime : time < item.end_date) :
    claim_wish s caller time tOk id = (.panic, s, []) := by
  simp only [claim_wish, hslot, if_neg (show ¬item.owner ≠ caller from
    fun h => h hc), if_pos htime]

theorem claim_unmet (s : Wishlist) (caller : H160) (time : Nat)
    (tOk : Bool) (id : Nat) (item : WishListItem)
    (hslot : s.items[id]? = some (some item)) (hc : item.owner = caller)
    (htime : item.end_date ≤ time) (hr : item.raised < item.target) :
    claim_wish s caller time tOk id = (.err .InvalidContribution, s, []) := by
  simp only [claim_wish, hslot, if_neg (show ¬item.owner ≠ caller from
    fun h => h hc), if_neg (Nat.not_lt.2 htime),
    if_neg (Nat.not_le.2 hr)]

theorem claim_ok (s : Wishlist) (caller : H160) (time : Nat) (id : Nat)
    (item : WishListItem) (hslot : s.items[id]? = some (some item))
    (hc : item.owner = caller) (htime : item.end_date ≤ time)
    (hr : item.target ≤ item.raised) :
    claim_wish s caller time true id =
      (.ok (), { s with items := s.items.set id none },
        [(item.owner, item.raised +
          item.contributors.foldl (fun acc cur => acc + cur.2) 0)]) := by
  simp only [claim_wish, hslot, if_neg (show ¬item.owner ≠ caller from
    fun h => h hc), if_neg (Nat.not_lt.2 htime), ge_iff_le, if_pos hr,
    if_pos rfl, if_true]

theorem claim_transfer_fail (s : Wishlist) (caller : H160) (time : Nat)
    (id : Nat) (item : WishListItem)
    (hslot : s.items[id]? = some (some item)) (hc : item.owner = caller)
    (htime : item.end_date ≤ time) (hr : item.target ≤ item.raised) :
    claim_wish s caller time false id =
      (.err .InvalidContribution, s,
        [(item.owner, item.raised +
          item.contributors.foldl (fun acc cur => acc + cur.2) 0)]) := by
  simp only [claim_wish, hslot, if_neg (show ¬item.owner ≠ caller from
    fun h => h hc), if_neg (Nat.not_lt.2 htime), ge_iff_le, if_pos hr,
    Bool.false_eq_true, if_false, if_neg]

theorem get_out_of_range (s : Wishlist) (id : Nat)
    (h : s.items[id]? = none) :
    get_wishlist_item s id = .err .WishNotFound := by
  simp only [get_wishlist_item, h]

theorem get_of_slot (s : Wishlist) (id : Nat) (v : Option WishListItem)
    (h : s.items[id]? = some v) :
    get_wishlist_item s id = .ok v := by
  simp only [get_wishlist_item, h]

/-! ### The slot-index/id invariant -/

/-- The relation that every operation maintains between slots and id fields:
the counter is one more than the number of slots ever allocated, and the
campaign stored at slot `i` carries id field `i + 1`. -/
def SlotIdInv (s : Wishlist) : Prop :=
  s.next_item_id = s.items.length + 1 ∧
  ∀ i item, s.items[i]? = some (some item) → item.id = i + 1

theorem slotIdInv_new : SlotIdInv Wishlist.new := by
  refine ⟨rfl, fun i item h => ?_⟩
  simp [Wishlist.new] at h

theorem slotIdInv_set (s : Wishlist) (id : Nat) (v : Option WishListItem)
    (h : SlotIdInv s) (hv : ∀ item', v = some item' → item'.id = id + 1) :
    SlotIdInv { s with items := s.items.set id v } := by
  refine ⟨by simpa using h.1, fun i item hi => ?_⟩
  rcases eq_or_ne id i with rfl | hne
  · by_cases hlen : id < s.items.length
    · rw [List.getElem?_set_self hlen] at hi
      exact hv item (by injection hi)
    · rw [List.set_eq_of_length_le (Nat.le_of_not_lt hlen)] at hi
      exact h.2 id item hi
  · rw [List.getElem?_set_ne hne] at hi
    exact h.2 i item hi

theorem slotIdInv_add (s : Wishlist) (c : H160) (v : Nat) (d : String)
    (e t : Nat) (h : SlotIdInv s) :
    SlotIdInv (add_wishlist_item s c v d e t).2 := by
  by_cases ht : t = 0
  · rw [add_err_target s c v d e t ht]
    exact h
  · by_cases hv : v < t * 10 / 100
    · rw [add_err_value s c v d e t hv]
      exact h
    · by_cases hn : s.next_item_id + 1 < 2 ^ 32
      · rw [add_ok s c v d e t (Nat.pos_of_ne_zero ht) (Nat.not_lt.1 hv) hn]
        refine ⟨by simp [h.1], fun i item hi => ?_⟩
        rw [List.getElem?_append] at hi
        by_cases hil : i < s.items.length
        · rw [if_pos hil] at hi
          exact h.2 i item hi
        · rw [if_neg hil] at hi
          rcases Nat.lt_or_ge (i - s.items.length) 1 with h1 | h1
          · have h0 : i - s.items.length = 0 := Nat.lt_one_iff.1 h1
            have hieq : i = s.items.length := by omega
            subst hieq
            simp only [h0, List.getElem?_cons_zero] at hi
            injection hi with hi
            injection hi with hi
            rw [← hi]
            exact h.1
          · rw [List.getElem?_eq_none (by simpa using h1)] at hi
            cases hi
      · rw [add_err_overflow s c v d e t (Nat.pos_of_ne_zero ht)
          (Nat.not_lt.1 hv) hn]
        exact h

theorem slotIdInv_fund (s : Wishlist) (c : H160) (v : Nat) (id : Nat)
    (h : SlotIdInv s) : SlotIdInv (fund_wish s c v id).2 := by
  by_cases hv : v ≤ 0
  · rw [fund_zero s c v id hv]
    exact h
  · have hv' : 0 < v := by omega
    rcases hq : s.items[id]? with _ | (_ | item)
    · rw [fund_notfound s c v id hv' hq]
      exact h
    · rw [fund_settled s c v id hv' hq]
      exact h
    · have hid : ∀ item' : WishListItem, item'.id = item.id →
          item'.id = id + 1 := fun item' he => he.trans (h.2 id item hq)
      by_cases hc : c = item.owner
      · rw [fund_owner s c v id item hv' hq hc]
        exact slotIdInv_set s id _ h (fun item' hi => by
          injection hi with hi
          rw [← hi]
          exact h.2 id item hq)
      · by_cases hmem : c ∈ item.contributors.map Prod.fst
        · rw [fund_existing s c v id item hv' hq hc hmem]
          exact slotIdInv_set s id _ h (fun item' hi => by
            injection hi with hi
            rw [← hi]
            exact h.2 id item hq)
        · rw [fund_new s c v id item hv' hq hc hmem]
          exact slotIdInv_set s id _ h (fun item' hi => by
            injection hi with hi
            rw [← hi]
            exact h.2 id item hq)

theorem slotIdInv_split (s : Wishlist) (c : H160) (id : Nat)
    (h : SlotIdInv s) : SlotIdInv (split_raised_wish s c id).2.1 := by
  rcases hq : s.items[id]? with _ | (_ | item)
  · rw [split_notfound s c id hq]
    exact h
  · rw [split_settled s c id hq]
    exact h
  · by_cases hmem : c ∈ item.contributors.map Prod.fst
    · by_cases hz : item.contributors.foldl (fun acc curr => acc + curr.2) 0 +
          item.raised = 0
      · rw [split_zero_worth s c id item hq hmem hz]
        exact h
      · rw [split_spec s c id item hq hmem hz]
        exact slotIdInv_set s id none h (fun item' hi => by cases hi)
    · rw [split_noncontrib s c id item hq hmem]
      exact h

theorem slotIdInv_claim (s : Wishlist) (c : H160) (time : Nat)
    (tOk : Bool) (id : Nat) (h : SlotIdInv s) :
    SlotIdInv (claim_wish s c time tOk id).2.1 := by
  rcases hq : s.items[id]? with _ | (_ | item)
  · rw [claim_notfound s c time tOk id hq]
    exact h
  · rw [claim_settled s c time tOk id hq]
    exact h
  · by_cases hc : item.owner = c
    · by_cases htime : time < item.end_date
      · rw [claim_early s c time tOk id item hq hc htime]
        exact h
      · by_cases hr : item.target ≤ item.raised
        · rcases tOk with _ | _
          · rw [claim_transfer_fail s c time id item hq hc
              (Nat.not_lt.1 htime) hr]
            exact h
          · rw [claim_ok s c time id item hq hc (Nat.not_lt.1 htime) hr]
            exact slotIdInv_set s id none h (fun item' hi => by cases hi)
        · rw [claim_unmet s c time tOk id item hq hc (Nat.not_lt.1 htime)
            (Nat.not_le.1 hr)]
          exact h
    · rw [claim_not_owner s c time tOk id item hq hc]
      exact h

/-! ### Claim theorems -/

/-- C1 (counterexample): on a fresh registry, a first successful creation
(target 1000, attached value 115) stores a campaign whose `id` field is 1
(not 0) in slot 0, and leaves the next-id counter at 2 (not 1), refuting
the claim that the first id is 0 and the counter ends at 1 with slot index
equal to the id field. -/
theorem C1_counterexample :
    (add_wishlist_item Wishlist.new 5 115 "gift" 99 1000).1 = .ok () ∧
    (add_wishlist_item Wishlist.new 5 115 "gift" 99 1000).2.items.map
      (Option.map WishListItem.id) = [some 1] ∧
    (add_wishlist_item Wishlist.new 5 115 "gift" 99 1000).2.next_item_id ≠ 1 := by
  refine ⟨rfl, rfl, by decide⟩

/-- C1 (amended): on a fresh registry the first successful creation stores a
campaign with id field 1 in slot 0 and leaves the next-id counter at 2; in
general every operation preserves the invariant that the campaign stored at
slot `i` has id field `i + 1` (slot index = id − 1) with the counter one
above the number of slots. -/
theorem C1_slot_id_correspondence :
    (∀ (c : H160) (v : Nat) (d : String) (e t : Nat), 0 < t →
      t * 10 / 100 ≤ v →
      add_wishlist_item Wishlist.new c v d e t =
        (.ok (),
          { next_item_id := 2,
            items := [some { id := 1, description := d, owner := c,
                             target := t, end_date := e, raised := v,
                             contributors := [] }] })) ∧
    SlotIdInv Wishlist.new ∧
    (∀ s c v d e t, SlotIdInv s → SlotIdInv (add_wishlist_item s c v d e t).2) ∧
    (∀ s c v id, SlotIdInv s → SlotIdInv (fund_wish s c v id).2) ∧
    (∀ s c id, SlotIdInv s → SlotIdInv (split_raised_wish s c id).2.1) ∧
    (∀ s c time tOk id, SlotIdInv s →
      SlotIdInv (claim_wish s c time tOk id).2.1) := by
  refine ⟨fun c v d e t ht hv => ?_, slotIdInv_new,
    slotIdInv_add, slotIdInv_fund, slotIdInv_split, slotIdInv_claim⟩
  rw [add_ok Wishlist.new c v d e t ht hv (by decide)]
  rfl

/-- C1 (witness): the amended statement at a concrete input. -/
theorem C1_witness :
    add_wishlist_item Wishlist.new 5 115 "gift" 99 1000 =
      (.ok (),
        { next_item_id := 2,
          items := [some { id := 1, description := "gift", owner := 5,
                           target := 1000, end_date := 99, raised := 115,
                           contributors := [] }] }) :=
  C1_slot_id_correspondence.1 5 115 "gift" 99 1000 (by decide) (by decide)

/-- A settled registry state, reached through the contract's own
operations: account 1 creates a campaign (target 3, attached value 2,
deadline 10), tops it up with 2 as owner, and claims at time 20 with a
successful payout transfer, which clears slot 0. -/
def settledReg : Wishlist :=
  (claim_wish
    (fund_wish (add_wishlist_item Wishlist.new 1 2 "toy" 10 3).2 1 2 0).2
    1 20 true 0).2.1

/-- C2: on the settled slot 0, `get_wishlist_item` does NOT return
`WishNotFound` (it returns `Ok(None)`), and `fund_wish`, `claim_wish` and
`split_raised_wish` all panic on `item.unwrap()` instead of returning the
typed error `WishNotFound`, refuting the claim that every operation on a
settled id terminates normally with `WishNotFound`. -/
theorem C2_settled_ops :
    settledReg = { next_item_id := 2, items := [none] } ∧
    get_wishlist_item settledReg 0 = .ok none ∧
    get_wishlist_item settledReg 0 ≠ .err .WishNotFound ∧
    fund_wish settledReg 2 10 0 = (.panic, settledReg) ∧
    claim_wish settledReg 1 20 true 0 = (.panic, settledReg, []) ∧
    split_raised_wish settledReg 2 0 = (.panic, settledReg, []) := by
  decide

/-- The specification's own claim scenario (§8): create with target 3 and
attached value 2 at deadline 10 (account 1), owner-fund with 2 (raised
becomes 4 ≥ 3), then claim at time 20 with a successful transfer. -/
def claimRun : Outcome Unit × Wishlist × List (H160 × Nat) :=
  claim_wish
    (fund_wish (add_wishlist_item Wishlist.new 1 2 "bike" 10 3).2 1 2 0).2
    1 20 true 0

/-- C4: the successful claim transfers the payout `raised +
Σ contributors = 4` to the owner, clears the slot and returns success, but
the subsequent `get_wishlist_item` on the settled id returns `Ok(None)`,
not `WishNotFound` as the claim states. -/
theorem C4_claim_settles :
    claimRun = (.ok (), { next_item_id := 2, items := [none] }, [(1, 4)]) ∧
    get_wishlist_item claimRun.2.1 0 = .ok none ∧
    get_wishlist_item claimRun.2.1 0 ≠ .err .WishNotFound := by
  decide

/-- C3: on an active campaign whose contributors include the caller (all
contributor amounts being positive, as every amount originates from a
positively-valued `fund_wish`), `split_raised_wish` succeeds with the slot
cleared (independently of any transfer outcome — the source discards every
transfer result) and requests, for each contributor in order, a transfer of
`amount * 100 / total_worth` where
`total_worth = raised + Σ contributor amounts`. -/
theorem C3_split_distribution (s : Wishlist) (id : Nat)
    (item : WishListItem) (caller : H160)
    (hslot : s.items[id]? = some (some item))
    (hmem : caller ∈ item.contributors.map Prod.fst)
    (hpos : ∀ c ∈ item.contributors, 0 < c.2) :
    split_raised_wish s caller id =
      (.ok (),
        { s with items := s.items.set id none },
        item.contributors.map (fun c => (c.1, c.2 * 100 /
          (item.raised +
            item.contributors.foldl (fun acc curr => acc + curr.2) 0)))) := by
  have hz : item.contributors.foldl (fun acc curr => acc + curr.2) 0 +
      item.raised ≠ 0 := by
    rcases List.mem_map.1 hmem with ⟨c, hc, _⟩
    have := hpos c hc
    have := snd_le_foldl_amount hc
    omega
  rw [split_spec s caller id item hslot hmem hz,
    Nat.add_comm item.raised (item.contributors.foldl
      (fun acc curr => acc + curr.2) 0)]

/-- C3 (witness): the distribution at a concrete campaign — raised 100,
contributors (2, 30) and (3, 10); total worth 140, shares
`30*100/140 = 21` and `10*100/140 = 7`. -/
theorem C3_witness :
    split_raised_wish
      { next_item_id := 2,
        items := [some { id := 1, description := "w", owner := 1,
                         target := 1000, end_date := 5, raised := 100,
                         contributors := [(2, 30), (3, 10)] }] } 2 0 =
      (.ok (), { next_item_id := 2, items := [none] },
        [(2, 21), (3, 7)]) := by
  have h := C3_split_distribution
    { next_item_id := 2,
      items := [some { id := 1, description := "w", owner := 1,
                       target := 1000, end_date := 5, raised := 100,
                       contributors := [(2, 30), (3, 10)] }] } 0
    { id := 1, description := "w", owner := 1, target := 1000,
      end_date := 5, raised := 100, contributors := [(2, 30), (3, 10)] } 2
    rfl (by decide) (by decide)
  exact h.trans (by decide)

/-- C5: on an active campaign, `claim_wish` returns a typed error exactly
when the caller is not the owner (`WishNotFound`), or the deadline has
passed but `raised < target` (`InvalidContribution`), or the goal is met
but the payout transfer fails (`InvalidContribution`); and on every typed
error the registry is left unchanged (the slot stays intact). -/
theorem C5_claim_typed_errors (s : Wishlist) (caller : H160) (time : Nat)
    (tOk : Bool) (id : Nat) (item : WishListItem)
    (hslot : s.items[id]? = some (some item)) :
    (∀ e : Error, (claim_wish s caller time tOk id).1 = .err e ↔
      ((caller ≠ item.owner ∧ e = .WishNotFound) ∨
       (caller = item.owner ∧ item.end_date ≤ time ∧
         item.raised < item.target ∧ e = .InvalidContribution) ∨
       (caller = item.owner ∧ item.end_date ≤ time ∧
         item.target ≤ item.raised ∧ tOk = false ∧
         e = .InvalidContribution))) ∧
    (∀ e : Error, (claim_wish s caller time tOk id).1 = .err e →
      (claim_wish s caller time tOk id).2.1 = s) := by
  by_cases hc : item.owner = caller
  · by_cases htime : time < item.end_date
    · rw [claim_early s caller time tOk id item hslot hc htime]
      refine ⟨fun e => ⟨fun he => (nomatch he), fun he => ?_⟩,
        fun e he => nomatch he⟩
      rcases he with ⟨h1, _⟩ | ⟨_, h2, _⟩ | ⟨_, h2, _⟩
      · exact absurd hc.symm h1
      · omega
      · omega
    · by_cases hr : item.target ≤ item.raised
      · rcases tOk with _ | _
        · rw [claim_transfer_fail s caller time id item hslot hc
            (Nat.not_lt.1 htime) hr]
          refine ⟨fun e => ⟨fun he => ?_, fun he => ?_⟩, fun e _ => rfl⟩
          · injection he with he
            exact Or.inr (Or.inr ⟨hc.symm, Nat.not_lt.1 htime, hr, rfl,
              he.symm⟩)
          · rcases he with ⟨h1, _⟩ | ⟨_, _, h3, _⟩ | ⟨_, _, _, _, h5⟩
            · exact absurd hc.symm h1
            · omega
            · rw [h5]
        · rw [claim_ok s caller time id item hslot hc (Nat.not_lt.1 htime) hr]
          refine ⟨fun e => ⟨fun he => (nomatch he), fun he => ?_⟩,
            fun e he => nomatch he⟩
          rcases he with ⟨h1, _⟩ | ⟨_, _, h3, _⟩ | ⟨_, _, _, h4, _⟩
          · exact absurd hc.symm h1
          · omega
          · cases h4
      · rw [claim_unmet s caller time tOk id item hslot hc
          (Nat.not_lt.1 htime) (Nat.not_le.1 hr)]
        refine ⟨fun e => ⟨fun he => ?_, fun he => ?_⟩, fun e _ => rfl⟩
        · injection he with he
          exact Or.inr (Or.inl ⟨hc.symm, Nat.not_lt.1 htime,
            Nat.not_le.1 hr, he.symm⟩)
        · rcases he with ⟨h1, _⟩ | ⟨_, _, _, h4⟩ | ⟨_, _, h3, _, _⟩
          · exact absurd hc.symm h1
          · rw [h4]
          · omega
  · rw [claim_not_owner s caller time tOk id item hslot hc]
    refine ⟨fun e => ⟨fun he => ?_, fun he => ?_⟩, fun e _ => rfl⟩
    · injection he with he
      exact Or.inl ⟨fun h => hc h.symm, he.symm⟩
    · rcases he with ⟨_, h2⟩ | ⟨h1, _⟩ | ⟨h1, _⟩
      · rw [h2]
      · exact absurd h1.symm hc
      · exact absurd h1.symm hc

/-- C5 (witness): the unmet-goal case at a concrete campaign — owner 1
claims at time 20 ≥ deadline 10 with raised 220 < target 1000 and gets
`InvalidContribution`. -/
theorem C5_witness :
    (claim_wish
      { next_item_id := 2,
        items := [some { id := 1, description := "w", owner := 1,
                         target := 1000, end_date := 10, raised := 220,
                         contributors := [] }] } 1 20 true 0).1 =
      .err .InvalidContribution :=
  ((C5_claim_typed_errors
      { next_item_id := 2,
        items := [some { id := 1, description := "w", owner := 1,
                         target := 1000, end_date := 10, raised := 220,
                         contributors := [] }] } 1 20 true 0
      { id := 1, description := "w", owner := 1, target := 1000,
        end_date := 10, raised := 220, contributors := [] } rfl).1
    Error.InvalidContribution).2
    (Or.inr (Or.inl ⟨rfl, by decide, by decide, rfl⟩))

/-- C6: whenever `target > 0`, the attached value is at least
`target * 10 / 100` and the id counter does not overflow (the case C7
covers), `add_wishlist_item` succeeds: it appends a campaign owned by the
caller with `raised` equal to the attached value and no contributors, and
increments the counter by exactly 1. -/
theorem C6_create_success (s : Wishlist) (caller : H160) (value : Nat)
    (d : String) (e t : Nat) (ht : 0 < t) (hv : t * 10 / 100 ≤ value)
    (hn : s.next_item_id + 1 < 2 ^ 32) :
    add_wishlist_item s caller value d e t =
      (.ok (),
        { next_item_id := s.next_item_id + 1,
          items := s.items ++
            [some { id := s.next_item_id, description := d, owner := caller,
                    target := t, end_date := e, raised := value,
                    contributors := [] }] }) :=
  add_ok s caller value d e t ht hv hn

/-- C6 (witness): the concrete creation with target 1000 and value 115. -/
theorem C6_witness :
    add_wishlist_item Wishlist.new 7 115 "w" 42 1000 =
      (.ok (),
        { next_item_id := 2,
          items := [some { id := 1, description := "w", owner := 7,
                           target := 1000, end_date := 42, raised := 115,
                           contributors := [] }] }) :=
  C6_create_success Wishlist.new 7 115 "w" 42 1000 (by decide) (by decide)
    (by decide)

/-- C7: `add_wishlist_item` fails with `InvalidTarget` when the target is
zero, with `InvalidContribution` whenever the attached value is below
`target * 10 / 100`, and with `InvalidContribution` when incrementing the
id counter would overflow `u32`; each failure leaves the registry
unchanged. -/
theorem C7_create_failures (s : Wishlist) (caller : H160) (value : Nat)
    (d : String) (e t : Nat) :
    (t = 0 →
      add_wishlist_item s caller value d e t = (.err .InvalidTarget, s)) ∧
    (value < t * 10 / 100 →
      add_wishlist_item s caller value d e t =
        (.err .InvalidContribution, s)) ∧
    (0 < t → t * 10 / 100 ≤ value → 2 ^ 32 ≤ s.next_item_id + 1 →
      add_wishlist_item s caller value d e t =
        (.err .InvalidContribution, s)) :=
  ⟨fun ht => add_err_target s caller value d e t ht,
   fun hv => add_err_value s caller value d e t hv,
   fun ht hv hn => add_err_overflow s caller value d e t ht hv
     (Nat.not_lt.2 hn)⟩

/-- C7 (witness): target 0 rejected, value 50 < 100 rejected, and a
counter at `2^32 − 1` rejected, each leaving the registry unchanged. -/
theorem C7_witness :
    add_wishlist_item Wishlist.new 7 115 "w" 42 0 =
      (.err .InvalidTarget, Wishlist.new) ∧
    add_wishlist_item Wishlist.new 7 50 "w" 42 1000 =
      (.err .InvalidContribution, Wishlist.new) ∧
    add_wishlist_item { next_item_id := 2 ^ 32 - 1, items := [] } 7 115 "w"
        42 1000 =
      (.err .InvalidContribution, { next_item_id := 2 ^ 32 - 1, items := [] }) :=
  ⟨(C7_create_failures Wishlist.new 7 115 "w" 42 0).1 rfl,
   (C7_create_failures Wishlist.new 7 50 "w" 42 1000).2.1 (by decide),
   (C7_create_failures { next_item_id := 2 ^ 32 - 1, items := [] } 7 115 "w"
       42 1000).2.2 (by decide) (by decide) (by decide)⟩

/-- C8: on an active campaign, a positively-valued `fund_wish` succeeds
with no deadline check (the function never reads the clock): an owner call
adds the value to `raised` leaving contributors untouched; a repeat
contributor's entry is updated in place (order preserved, `raised`
untouched); a new contributor is appended; and two successive funds from
the same non-owner account leave exactly one entry for it, holding
`v1 + v2`. -/
theorem C8_fund_behavior (s : Wishlist) (id : Nat) (item : WishListItem)
    (caller : H160) (value : Nat)
    (hslot : s.items[id]? = some (some item)) (hv : 0 < value) :
    (caller = item.owner →
      fund_wish s caller value id =
        (.ok (),
          { s with items := s.items.set id (some { item with raised := item.raised + value }) })) ∧
    (caller ≠ item.owner → caller ∈ item.contributors.map Prod.fst →
      fund_wish s caller value id =
        (.ok (),
          { s with items := s.items.set id (some { item with contributors := item.contributors.map (fun c => if c.1 = caller then (c.1, c.2 + value) else c) }) })) ∧
    (caller ≠ item.owner → caller ∉ item.contributors.map Prod.fst →
      fund_wish s caller value id =
        (.ok (),
          { s with items := s.items.set id (some { item with contributors := item.contributors ++ [(caller, value)] }) })) ∧
    (∀ v2 : Nat, 0 < v2 → caller ≠ item.owner →
      caller ∉ item.contributors.map Prod.fst →
      fund_wish (fund_wish s caller value id).2 caller v2 id =
        (.ok (),
          { s with items := s.items.set id (some { item with contributors := item.contributors ++ [(caller, value + v2)] }) }) ∧
      (item.contributors ++ [(caller, value + v2)]).filter
          (fun c => c.1 = caller) = [(caller, value + v2)]) := by
  have hlt : id < s.items.length := (List.getElem?_eq_some_iff.1 hslot).1
  refine ⟨fun hc => fund_owner s caller value id item hv hslot hc,
    fun hc hmem => fund_existing s caller value id item hv hslot hc hmem,
    fun hc hnot => fund_new s caller value id item hv hslot hc hnot,
    fun v2 hv2 hc hnot => ?_⟩
  have h1 := fund_new s caller value id item hv hslot hc hnot
  have key : fund_wish (fund_wish s caller value id).2 caller v2 id =
      fund_wish
        { s with items := s.items.set id (some { item with contributors := item.contributors ++ [(caller, value)] }) } caller v2 id := by
    rw [h1]
  have hslot1 :
      (({ s with items := s.items.set id (some { item with contributors := item.contributors ++ [(caller, value)] }) }) :
        Wishlist).items[id]? =
        some (some { item with contributors :=
          item.contributors ++ [(caller, value)] }) :=
    List.getElem?_set_self hlt
  have h2 := fund_existing _ caller v2 id
    { item with contributors := item.contributors ++ [(caller, value)] }
    hv2 hslot1 hc (by simp)
  have hmap : (item.contributors ++ [(caller, value)]).map
      (fun c => if c.1 = caller then (c.1, c.2 + v2) else c) =
      item.contributors ++ [(caller, value + v2)] := by
    rw [List.map_append, map_update_of_not_mem v2 hnot]
    simp
  refine ⟨?_, ?_⟩
  · rw [key, h2]
    simp only [hmap, List.set_set]
  · rw [List.filter_append, filter_fst_of_not_mem hnot]
    simp

/-- C8 (witness): account 2 (not the owner 1) funds campaign 0 twice with
30 then 10; the final registry holds exactly one entry `(2, 40)`. -/
theorem C8_witness :
    fund_wish
      (fund_wish
        { next_item_id := 2,
          items := [some { id := 1, description := "w", owner := 1,
                           target := 1000, end_date := 5, raised := 100,
                           contributors := [] }] } 2 30 0).2 2 10 0 =
      (.ok (),
        { next_item_id := 2,
          items := [some { id := 1, description := "w", owner := 1,
                           target := 1000, end_date := 5, raised := 100,
                           contributors := [(2, 40)] }] }) := by
  have h := (C8_fund_behavior
    { next_item_id := 2,
      items := [some { id := 1, description := "w", owner := 1,
                       target := 1000, end_date := 5, raised := 100,
                       contributors := [] }] } 0
    { id := 1, description := "w", owner := 1, target := 1000,
      end_date := 5, raised := 100, contributors := [] } 2 30 rfl
    (by decide)).2.2.2 10 (by decide) (by decide) (by decide)
  exact h.1.trans (by decide)

/-- C9: claiming an active campaign as its owner before the deadline, and
splitting an active campaign from a non-contributor account, are panics
(fatal assertion failures, src/lib.rs:246 and :206-209), never typed
errors; both abort with the registry unchanged and no transfer
requested. -/
theorem C9_fatal_assertions :
    (∀ (s : Wishlist) (id : Nat) (item : WishListItem) (caller : H160)
        (time : Nat) (tOk : Bool), s.items[id]? = some (some item) →
      caller = item.owner → time < item.end_date →
      claim_wish s caller time tOk id = (.panic, s, [])) ∧
    (∀ (s : Wishlist) (id : Nat) (item : WishListItem) (caller : H160),
      s.items[id]? = some (some item) →
      caller ∉ item.contributors.map Prod.fst →
      split_raised_wish s caller id = (.panic, s, [])) :=
  ⟨fun s id item caller time tOk hslot hc htime =>
     claim_early s caller time tOk id item hslot hc.symm htime,
   fun s id item caller hslot hnot =>
     split_noncontrib s caller id item hslot hnot⟩

/-- C9 (witness): owner 1 claiming at time 5 before deadline 10 panics,
and account 3 (not among the contributors, which are just account 2)
splitting panics; the registry is unchanged in both runs. -/
theorem C9_witness :
    claim_wish
      { next_item_id := 2,
        items := [some { id := 1, description := "w", owner := 1,
                         target := 1000, end_date := 10, raised := 100,
                         contributors := [(2, 30)] }] } 1 5 true 0 =
      (.panic,
        { next_item_id := 2,
          items := [some { id := 1, description := "w", owner := 1,
                           target := 1000, end_date := 10, raised := 100,
                           contributors := [(2, 30)] }] }, []) ∧
    split_raised_wish
      { next_item_id := 2,
        items := [some { id := 1, description := "w", owner := 1,
                         target := 1000, end_date := 10, raised := 100,
                         contributors := [(2, 30)] }] } 3 0 =
      (.panic,
        { next_item_id := 2,
          items := [some { id := 1, description := "w", owner := 1,
                           target := 1000, end_date := 10, raised := 100,
                           contributors := [(2, 30)] }] }, []) :=
  ⟨C9_fatal_assertions.1 _ 0
     { id := 1, description := "w", owner := 1, target := 1000,
       end_date := 10, raised := 100, contributors := [(2, 30)] } 1 5 true
     rfl rfl (by decide),
   C9_fatal_assertions.2 _ 0
     { id := 1, description := "w", owner := 1, target := 1000,
       end_date := 10, raised := 100, contributors := [(2, 30)] } 3
     rfl (by decide)⟩

/-- C10: in a successful `split_raised_wish` (caller among the
contributors, every contributor amount positive as guaranteed by
`fund_wish`'s positivity check), the divisor
`total_worth = Σ amounts + raised` is strictly positive — the division
never divides by zero — and every requested transfer is of at most 100
units, since `share = amount * 100 / total_worth` with
`amount ≤ total_worth`. -/
theorem C10_split_bounds (s : Wishlist) (id : Nat) (item : WishListItem)
    (caller : H160) (hslot : s.items[id]? = some (some item))
    (hmem : caller ∈ item.contributors.map Prod.fst)
    (hpos : ∀ c ∈ item.contributors, 0 < c.2) :
    0 < item.contributors.foldl (fun acc curr => acc + curr.2) 0 +
      item.raised ∧
    (split_raised_wish s caller id).1 = .ok () ∧
    ∀ p ∈ (split_raised_wish s caller id).2.2, p.2 ≤ 100 := by
  have hz : 0 < item.contributors.foldl (fun acc curr => acc + curr.2) 0 +
      item.raised := by
    rcases List.mem_map.1 hmem with ⟨c, hc, _⟩
    have := hpos c hc
    have := snd_le_foldl_amount hc
    omega
  have hs := split_spec s caller id item hslot hmem (by omega)
  refine ⟨hz, by rw [hs], ?_⟩
  rw [hs]
  intro p hp
  rcases List.mem_map.1 hp with ⟨c, hc, rfl⟩
  have h1 : c.2 ≤ item.contributors.foldl (fun acc curr => acc + curr.2) 0 +
      item.raised :=
    (snd_le_foldl_amount hc).trans (Nat.le_add_right _ _)
  calc c.2 * 100 /
        (item.contributors.foldl (fun acc curr => acc + curr.2) 0 +
          item.raised) ≤
      (item.contributors.foldl (fun acc curr => acc + curr.2) 0 +
          item.raised) * 100 /
        (item.contributors.foldl (fun acc curr => acc + curr.2) 0 +
          item.raised) :=
        Nat.div_le_div_right (Nat.mul_le_mul_right 100 h1)
    _ = 100 := Nat.mul_div_cancel_left 100 hz

/-- C10 (witness): raised 50 and contributors (2, 30), (3, 10): total
worth 90 is positive, the split succeeds, and each share is at most 100
(here 33 and 11). -/
theorem C10_witness :
    0 < ([((2 : H160), (30 : Nat)), (3, 10)].foldl
      (fun acc curr => acc + curr.2) 0) + 50 ∧
    (split_raised_wish
      { next_item_id := 2,
        items := [some { id := 1, description := "w", owner := 1,
                         target := 1000, end_date := 5, raised := 50,
                         contributors := [(2, 30), (3, 10)] }] } 2 0).1 =
      .ok () ∧
    ∀ p ∈ (split_raised_wish
      { next_item_id := 2,
        items := [some { id := 1, description := "w", owner := 1,
                         target := 1000, end_date := 5, raised := 50,
                         contributors := [(2, 30), (3, 10)] }] } 2 0).2.2,
      p.2 ≤ 100 :=
  C10_split_bounds
    { next_item_id := 2,
      items := [some { id := 1, description := "w", owner := 1,
                       target := 1000, end_date := 5, raised := 50,
                       contributors := [(2, 30), (3, 10)] }] } 0
    { id := 1, description := "w", owner := 1, target := 1000,
      end_date := 5, raised := 50, contributors := [(2, 30), (3, 10)] } 2
    rfl (by decide) (by decide)

end wishlist
